import Mathlib

/-!
Verification development for the crime-doc-generator segment pipeline.

Shallow embedding of the repository's Python sources:
  * `src/processors/document_processor.py`  (document combining + segmentation)
  * `src/processors/experiment_tracker.py`  (run state: segments, errors, persistence)
  * `src/processors/image_generator.py`     (prompt synthesis + image generation)
  * `src/processors/audio_generator.py`, `src/processors/video_generator.py`
  * `src/main.py`                           (orchestrator loop)

External services (text completion, image/audio/video generation) are modelled
by an `Oracle`: each class of call is a function from a call-sequence number to
an `Except` outcome, abstracting the nondeterministic service.  File-system
writes are modelled by the values that would be written (paths, snapshots).
Wall-clock readings are explicit `String` parameters.  W&B telemetry (whose
failures the source swallows) and the Streamlit UI are omitted: no claim
depends on them and they do not touch the tracked state.
-/

namespace CrimeDoc

/-! ## Python string primitives -/

/-- Python whitespace for `str.strip()` restricted to the ASCII range:
space, tab, newline, carriage return, vertical tab, form feed. -/
def isPySpace (c : Char) : Bool :=
  c = ' ' || c = '\t' || c = '\n' || c = '\r' || c.toNat = 11 || c.toNat = 12

/-- Python `str.strip()` on the character list: drop whitespace from both ends. -/
def pyStripList (l : List Char) : List Char :=
  ((l.dropWhile isPySpace).reverse.dropWhile isPySpace).reverse

/-- Python `str.strip()`. -/
def pyStrip (s : String) : String :=
  String.mk (pyStripList s.data)

theorem all_of_all_dropWhile (p : Char → Bool) (l : List Char)
    (h : ∀ x ∈ l.dropWhile p, p x) : ∀ x ∈ l, p x := by
  induction l with
  | nil => simp
  | cons a as ih =>
    rw [List.dropWhile_cons] at h
    cases hpa : p a with
    | true =>
      rw [hpa] at h
      simp only [if_true] at h
      intro x hx
      rcases List.mem_cons.mp hx with rfl | hx
      · exact hpa
      · exact ih h x hx
    | false =>
      rw [hpa] at h
      simp only [Bool.false_eq_true, if_false] at h
      exact h

theorem pyStripList_eq_nil_iff (l : List Char) :
    pyStripList l = [] ↔ ∀ c ∈ l, isPySpace c := by
  constructor
  · intro h
    have h2 : List.rdropWhile isPySpace (l.dropWhile isPySpace) = [] := by
      unfold pyStripList at h
      unfold List.rdropWhile
      exact h
    exact all_of_all_dropWhile _ _ (List.rdropWhile_eq_nil_iff.mp h2)
  · intro h
    have h1 : l.dropWhile isPySpace = [] := List.dropWhile_eq_nil_iff.mpr h
    unfold pyStripList
    rw [h1]
    rfl

theorem pyStrip_eq_empty_iff (s : String) :
    pyStrip s = "" ↔ ∀ c ∈ s.data, isPySpace c := by
  unfold pyStrip
  rw [show ("" : String) = String.mk [] from rfl]
  constructor
  · intro h
    exact (pyStripList_eq_nil_iff s.data).mp (congrArg String.data h)
  · intro h
    exact congrArg String.mk ((pyStripList_eq_nil_iff s.data).mpr h)

/-! ## Data model (`src/processors/experiment_tracker.py`) -/

/-- The feedback dict assembled in `main.py` lines 108-127 plus the
`needs_regeneration` key consulted by `add_feedback`; keys that a dict may
lack are `Option`s.  Python float rating values do not occur (the sliders
produce ints). -/
structure Feedback where
  text_rating : Option Int := none
  prompt_rating : Option Int := none
  revised_prompt : Option String := none
  comments : Option String := none
  needs_regeneration : Option Bool := none
deriving DecidableEq, Repr, Inhabited

/-- The `DocumentarySegment` dataclass (experiment_tracker.py lines 9-18).
`metrics` (`Dict[str, float]`, never written by any operation) is modelled
with rational values. -/
structure DocumentarySegment where
  text : String
  prompt : String
  image_path : Option String := none
  audio_path : Option String := none
  video_path : Option String := none
  feedback : Option Feedback := none
  metrics : Option (List (String × Rat)) := none
deriving DecidableEq, Repr, Inhabited

/-- The exceptions the embedded code can raise, classified by raise site
(the Python source raises `Exception`/`TypeError`/`IndexError` with message
strings; the message text of the fixed-format ones is elided). -/
inductive PyErr where
  | typeError
  | indexError
  | emptyInput
  | generationError (msg : String)
deriving DecidableEq, Repr

/-- The mutable state of `ExperimentTracker` (experiment_tracker.py lines
21-37): run id, segment list, error flag, and the contents of `errors.json`
(message, timestamp pairs).  The W&B handle is omitted: every W&B call is
telemetry whose failure the source swallows. -/
structure TrackerState where
  run_id : String
  segments : List DocumentarySegment := []
  has_error : Bool := false
  error_log : List (String × String) := []
deriving DecidableEq, Repr, Inhabited

/-- Python `ExperimentTracker.__init__`: fresh run with no segments and
`has_error = False`. -/
def freshTracker (run_id : String) : TrackerState :=
  { run_id := run_id }

/-- Method `start_segment` (lines 62-81): append a new segment, return the new
state together with `len(self.segments) - 1`. -/
def start_segment (text prompt : String) (st : TrackerState) : TrackerState × Nat :=
  let st' := { st with segments := st.segments ++ [{ text := text, prompt := prompt }] }
  (st', st'.segments.length - 1)

/-- Python list indexing `l[i]`: valid for `-len ≤ i < len`, negative
indices count from the end; yields the normalised non-negative position,
`none` meaning `IndexError`. -/
def pyNormIdx (len : Nat) (i : Int) : Option Nat :=
  if 0 ≤ i ∧ i < len then some i.toNat
  else if -(len : Int) ≤ i ∧ i < 0 then some (i + len).toNat
  else none

/-- Python truthiness of an `Optional[str]`: `None` and `""` are falsy. -/
def truthy : Option String → Bool
  | none => false
  | some s => if s = "" then false else true

/-- The body of `update_segment` acting on one segment (experiment_tracker.py
lines 91-110): each path is overwritten only when the supplied value is
truthy (`if image_path:` etc.). -/
def applyPathUpdate (image_path audio_path video_path : Option String)
    (seg : DocumentarySegment) : DocumentarySegment :=
  { seg with
    image_path := if truthy image_path then image_path else seg.image_path
    audio_path := if truthy audio_path then audio_path else seg.audio_path
    video_path := if truthy video_path then video_path else seg.video_path }

/-- Method `update_segment` (lines 83-113): `self.segments[segment_idx]` raises
`IndexError` exactly when the index is invalid for the list (Python
semantics, before any mutation); otherwise the segment is updated in
place. -/
def update_segment (segment_idx : Int) (image_path audio_path video_path : Option String)
    (st : TrackerState) : Except PyErr TrackerState :=
  match pyNormIdx st.segments.length segment_idx with
  | none => .error .indexError
  | some k =>
    let newSegs := st.segments.set k
      (applyPathUpdate image_path audio_path video_path (st.segments.getD k default))
    .ok { st with segments := newSegs }

/-- Keyword arguments of a Python call to `tracker.update_segment`. -/
structure UpdateKwArgs where
  image_path : Option String := none
  audio_path : Option String := none
  video_path : Option String := none
  prompt : Option String := none
deriving Repr

/-- Python call semantics for `tracker.update_segment(...)`:
`update_segment` (experiment_tracker.py line 83) accepts only the keywords
`image_path`, `audio_path`, `video_path`; any other keyword — in particular
the `prompt=` keyword used at main.py line 81 — raises `TypeError` before
the body runs. -/
def call_update_segment (segment_idx : Int) (kw : UpdateKwArgs) (st : TrackerState) :
    Except PyErr TrackerState :=
  if kw.prompt.isSome then .error .typeError
  else update_segment segment_idx kw.image_path kw.audio_path kw.video_path st

/-- Method `add_feedback` (lines 164-181): store the feedback dict on
`self.segments[segment_idx]` and return `bool(feedback.get("needs_regeneration", False))`. -/
def add_feedback (segment_idx : Int) (feedback : Feedback) (st : TrackerState) :
    Except PyErr (TrackerState × Bool) :=
  match pyNormIdx st.segments.length segment_idx with
  | none => .error .indexError
  | some k =>
    let newSegs :=
      st.segments.set k { st.segments.getD k default with feedback := some feedback }
    .ok ({ st with segments := newSegs }, feedback.needs_regeneration.getD false)

/-- Method `log_error` (lines 115-145): set `has_error` and append to
`errors.json`. -/
def log_error (error_message : String) (now : String) (st : TrackerState) : TrackerState :=
  { st with has_error := true, error_log := st.error_log ++ [(error_message, now)] }

/-- The JSON object `_save_local_state` writes to `state.json`
(experiment_tracker.py lines 183-207): the run id, a wall-clock timestamp
taken at write time, and one dict per segment holding exactly the segment's
seven fields.  `json.dump` is deterministic, so the bytes written are a
function of this value. -/
structure SavedState where
  run_id : String
  timestamp : String
  segments : List DocumentarySegment
deriving DecidableEq, Repr

def save_local_state (st : TrackerState) (now : String) : SavedState :=
  { run_id := st.run_id, timestamp := now, segments := st.segments }

/-- Method `save_experiment` (lines 209-223): its durable write is exactly
`_save_local_state`'s; the trailing W&B log is telemetry. -/
def save_experiment_write (st : TrackerState) (now : String) : SavedState :=
  save_local_state st now

/-! ### Operation traces over the tracker -/

/-- One public mutating call on the tracker. -/
inductive TrackerOp where
  | start (text prompt : String)
  | update (segment_idx : Int) (image_path audio_path video_path : Option String)
  | feedback (segment_idx : Int) (fb : Feedback)
  | logErr (error_message now : String)
deriving Repr

/-- Run one tracker call for its state effect; a call that raises
`IndexError` does so before any mutation, leaving the state unchanged. -/
def step (op : TrackerOp) (st : TrackerState) : TrackerState :=
  match op with
  | .start t p => (start_segment t p st).1
  | .update i a b c =>
    match update_segment i a b c st with
    | .ok st' => st'
    | .error _ => st
  | .feedback i fb =>
    match add_feedback i fb st with
    | .ok r => r.1
    | .error _ => st
  | .logErr m now => log_error m now st

def applyOps (ops : List TrackerOp) (st : TrackerState) : TrackerState :=
  ops.foldl (fun s op => step op s) st

/-- Calling `start_segment` once per element of `ps`, collecting the
returned indices in call order. -/
def startMany (ps : List (String × String)) (st : TrackerState) : TrackerState × List Nat :=
  match ps with
  | [] => (st, [])
  | (t, p) :: rest =>
    let r := start_segment t p st
    let r2 := startMany rest r.1
    (r2.1, r.2 :: r2.2)

/-! ## Segmenter (`src/processors/document_processor.py`) -/

/-- Lines 60-74: each successfully read document's text is appended to the
running text followed by `"\n\n"`.  Documents are modelled by their
already-extracted text (reading and PDF extraction are I/O). -/
def combinedText (docs : List String) : String :=
  docs.foldl (fun acc t => acc ++ t ++ "\n\n") ""

/-- The padding marker of line 107. -/
def placeholderMarker : String := "[Segment content to be generated]"

/-- Python `content.split("\n\n")` on the character list: cut at each
leftmost, non-overlapping occurrence of the two-newline separator
(`acc` holds the current piece reversed). -/
def splitOnBlankAux : List Char → List Char → List (List Char)
  | [], acc => [acc.reverse]
  | '\n' :: '\n' :: rest, acc => acc.reverse :: splitOnBlankAux rest []
  | c :: rest, acc => splitOnBlankAux rest (c :: acc)

/-- Python `s.split("\n\n")`. -/
def pySplitOnBlank (s : String) : List String :=
  (splitOnBlankAux s.data []).map String.mk

/-- Line 99: split the completion content on `"\n\n"`, strip each piece,
keep the non-empty ones. -/
def candidateSegments (content : String) : List String :=
  (pySplitOnBlank content).filterMap fun s =>
    let t := pyStrip s
    if t = "" then none else some t

/-- Lines 104-108: pad with the placeholder up to ten entries, then return
the first ten. -/
def padTruncate (segs : List String) : List String :=
  let padded :=
    if segs.length < 10 then segs ++ List.replicate (10 - segs.length) placeholderMarker
    else segs
  padded.take 10

/-- Lines 98-108 applied to the completion content: raise the
`GenerationError` of line 102 when no candidate survives, else return
exactly ten segments. -/
def parse_segments (content : String) : Except PyErr (List String) :=
  let segs := candidateSegments content
  if segs = [] then .error (.generationError "No segments were generated")
  else .ok (padTruncate segs)

/-- Function `process_documents` (lines 53-112) over already-extracted document
texts and the completion call's outcome: raise the empty-input error of
line 82 iff the combined text is blank after stripping; otherwise delegate
to the completion call and segment parsing, whose errors are re-raised
wrapped in line 112's message. -/
def process_documents (docs : List String) (completion : Except String String) :
    Except PyErr (List String) :=
  if pyStrip (combinedText docs) = "" then .error .emptyInput
  else
    match completion with
    | .error e => .error (.generationError ("Failed to process documents: " ++ e))
    | .ok content =>
      match parse_segments content with
      | .error _ =>
        .error (.generationError "Failed to process documents: No segments were generated")
      | .ok segs => .ok segs

/-! ## Generation collaborators
(`src/processors/image_generator.py`, `audio_generator.py`,
`video_generator.py`) -/

/-- The external services.  `complete` abstracts the chat-completion
endpoint (used by the segmenter and by `generate_sd_prompts`) as a function
of the call-sequence number and the user-message content; the other three
decide whether the n-th image/audio/video service call succeeds.  The
`asyncio.sleep(1)` rate-limit pauses have no state effect and are not
modelled. -/
structure Oracle where
  complete : Nat → String → Except String String
  imageOk : Nat → Except String Unit
  audioOk : Nat → Except String Unit
  videoOk : Nat → Except String Unit

/-- Function `generate_sd_prompts` (image_generator.py lines 8-19): one completion
call on the scene text; `c` is the completion call counter, incremented by
the call. -/
def generate_sd_prompts (om : Oracle) (segment : String) (c : Nat) :
    Except PyErr String × Nat :=
  (match om.complete c ("Create a cinematic SD prompt for this scene: " ++ segment) with
    | .error e => .error (.generationError e)
    | .ok prompt => .ok prompt,
   c + 1)

/-- The JSON body `generate_images` posts to the image service
(image_generator.py lines 33-43). -/
structure ImageCall where
  prompt : String
  negative_prompt : String
  width : Nat
  height : Nat
  character_reference : String
deriving DecidableEq, Repr

/-- Loop of `generate_images` (lines 28-51): for the `i`-th segment,
synthesize a fresh prompt (a completion call), post the job, download the
image to `temp/image_{i}.png`.  Any failure propagates (no `try` in the
source).  Returns the saved paths, the posted calls, and the advanced
completion / image-service counters. -/
def generate_images_go (om : Oracle) (char_path : String) :
    List String → Nat → Nat → Nat → Except PyErr (List String × List ImageCall × Nat × Nat)
  | [], _i, c, ic => .ok ([], [], c, ic)
  | seg :: rest, i, c, ic =>
    match generate_sd_prompts om seg c with
    | (.error e, _) => .error e
    | (.ok prompt, c') =>
      let call : ImageCall :=
        { prompt := prompt
          negative_prompt := "blurry, low quality, bad composition"
          width := 1080
          height := 1920
          character_reference := char_path }
      match om.imageOk ic with
      | .error e => .error (.generationError e)
      | .ok _ =>
        match generate_images_go om char_path rest (i + 1) c' (ic + 1) with
        | .error e => .error e
        | .ok (paths, calls, c2, ic2) =>
          .ok (s!"temp/image_{i}.png" :: paths, call :: calls, c2, ic2)

/-- Function `generate_images` (image_generator.py lines 21-53). -/
def generate_images (om : Oracle) (segments : List String) (character_image_path : String)
    (c ic : Nat) : Except PyErr (List String × List ImageCall × Nat × Nat) :=
  generate_images_go om character_image_path segments 0 c ic

/-- Loop of `generate_voiceovers` (audio_generator.py lines 12-26): the
`i`-th segment's audio is written to `temp/audio_{i}.mp3`. -/
def generate_voiceovers_go (om : Oracle) :
    List String → Nat → Nat → Except PyErr (List String × Nat)
  | [], _i, ac => .ok ([], ac)
  | _seg :: rest, i, ac =>
    match om.audioOk ac with
    | .error e => .error (.generationError e)
    | .ok _ =>
      match generate_voiceovers_go om rest (i + 1) (ac + 1) with
      | .error e => .error e
      | .ok (paths, ac2) => .ok (s!"temp/audio_{i}.mp3" :: paths, ac2)

/-- Function `generate_voiceovers` (audio_generator.py lines 6-28). -/
def generate_voiceovers (om : Oracle) (segments : List String) (_voice_id : String)
    (ac : Nat) : Except PyErr (List String × Nat) :=
  generate_voiceovers_go om segments 0 ac

/-- Loop of `create_video_segments` (video_generator.py lines 11-46) over
`zip(image_paths, audio_paths)`: the `i`-th clip is `temp/segment_{i}.mp4`
(the ffmpeg subprocess is spawned, not awaited; the path is appended
regardless, unless spawning itself raises). -/
def create_video_segments_go (om : Oracle) :
    List (String × String) → Nat → Nat → Except PyErr (List String × Nat)
  | [], _i, vc => .ok ([], vc)
  | _pair :: rest, i, vc =>
    match om.videoOk vc with
    | .error e => .error (.generationError e)
    | .ok _ =>
      match create_video_segments_go om rest (i + 1) (vc + 1) with
      | .error e => .error e
      | .ok (paths, vc2) => .ok (s!"temp/segment_{i}.mp4" :: paths, vc2)

/-- Function `create_video_segments` (video_generator.py lines 7-48). -/
def create_video_segments (om : Oracle) (image_paths audio_paths : List String)
    (vc : Nat) : Except PyErr (List String × Nat) :=
  create_video_segments_go om (image_paths.zip audio_paths) 0 vc

/-! ## Orchestrator (`src/main.py`) -/

/-- Per-service call counters for the oracle. -/
structure Counters where
  c : Nat := 0
  ic : Nat := 0
  ac : Nat := 0
  vc : Nat := 0
deriving Repr, DecidableEq

/-- Python `str(e)` for the embedded exceptions. -/
def pyErrMsg : PyErr → String
  | .typeError => "update_segment() got an unexpected keyword argument: prompt"
  | .indexError => "list index out of range"
  | .emptyInput => "No content could be extracted from the uploaded documents"
  | .generationError m => m

/-- One iteration of the orchestrator's per-segment loop (main.py lines
68-133): start tracking the segment (prompt `""`), synthesize a prompt,
attempt to record it via `tracker.update_segment(segment_idx, prompt=prompt)`
(line 81 — a call that raises `TypeError`, since `update_segment` has no
`prompt` parameter), then generate image, audio and video for the singleton
list `[segment]` and record the artifact paths.  The feedback expander's
submit button is not pressed during the generation pass (Streamlit
widget-state), so line 130 does not run here.  On an exception the current
tracker state is returned with the error: the tracker is a global object
and nothing rolls it back. -/
def processOneSegment (om : Oracle) (char_path voice_id : String) (seg : String)
    (st : TrackerState) (k : Counters) : TrackerState × Counters × Option PyErr :=
  let r := start_segment seg "" st
  let st1 := r.1
  let idx : Int := r.2
  match generate_sd_prompts om seg k.c with
  | (.error e, c') => (st1, { k with c := c' }, some e)
  | (.ok prompt, c') =>
    match call_update_segment idx { prompt := some prompt } st1 with
    | .error e => (st1, { k with c := c' }, some e)
    | .ok st2 =>
      match generate_images om [seg] char_path c' k.ic with
      | .error e => (st2, { k with c := c' }, some e)
      | .ok (image_paths, _calls, c2, ic2) =>
        match generate_voiceovers om [seg] voice_id k.ac with
        | .error e => (st2, { k with c := c2, ic := ic2 }, some e)
        | .ok (audio_paths, ac2) =>
          match create_video_segments om image_paths audio_paths k.vc with
          | .error e => (st2, { k with c := c2, ic := ic2, ac := ac2 }, some e)
          | .ok (video_paths, vc2) =>
            match update_segment idx image_paths.head? audio_paths.head?
                video_paths.head? st2 with
            | .error e => (st2, { c := c2, ic := ic2, ac := ac2, vc := vc2 }, some e)
            | .ok st3 => (st3, { c := c2, ic := ic2, ac := ac2, vc := vc2 }, none)

/-- The `for i, segment in enumerate(segments)` loop (main.py line 68):
stops at the first exception, which propagates to `main`'s `except` arm. -/
def processLoop (om : Oracle) (char_path voice_id : String) :
    List String → TrackerState → Counters → TrackerState × Counters × Option PyErr
  | [], st, k => (st, k, none)
  | seg :: rest, st, k =>
    match processOneSegment om char_path voice_id seg st k with
    | (st', k', some e) => (st', k', some e)
    | (st', k', none) => processLoop om char_path voice_id rest st' k'

/-- Outcome of one orchestrated run. -/
structure RunResult where
  state : TrackerState
  loopError : Option PyErr
  finalWrite : SavedState
  finalSaved : Bool
deriving Repr

/-- Function `main` (main.py lines 43-166) from the point where `process_documents`
has succeeded with `segments`: run the per-segment loop; any exception
reaches the single `except` arm (lines 149-152), which logs it on the
tracker (`log_error`, setting `has_error`); the `finally` arm (lines
153-166) always calls `save_experiment` and `finish` (which saves again),
so a final snapshot is always written.  `now` stands for the wall-clock
readings of the final stretch. -/
def runMain (om : Oracle) (char_path voice_id : String) (segments : List String)
    (st0 : TrackerState) (now : String) : RunResult :=
  match processLoop om char_path voice_id segments st0 {} with
  | (st, _k, some e) =>
    let st' := log_error ("An error occurred: " ++ pyErrMsg e) now st
    { state := st'
      loopError := some e
      finalWrite := save_experiment_write st' now
      finalSaved := true }
  | (st, _k, none) =>
    { state := st
      loopError := none
      finalWrite := save_experiment_write st now
      finalSaved := true }

/-! ## Helper lemmas -/

theorem start_segment_idx (t p : String) (st : TrackerState) :
    (start_segment t p st).2 = st.segments.length := by
  simp [start_segment]

theorem start_segment_state (t p : String) (st : TrackerState) :
    (start_segment t p st).1 =
      { st with segments := st.segments ++ [{ text := t, prompt := p }] } := rfl

theorem pyNormIdx_eq_none_iff (n : Nat) (i : Int) :
    pyNormIdx n i = none ↔ ¬ (-(n : Int) ≤ i ∧ i < (n : Int)) := by
  unfold pyNormIdx
  by_cases h1 : 0 ≤ i ∧ i < (n : Int)
  · rw [if_pos h1]
    simp only [reduceCtorEq, false_iff]
    omega
  · rw [if_neg h1]
    by_cases h2 : -(n : Int) ≤ i ∧ i < 0
    · rw [if_pos h2]
      simp only [reduceCtorEq, false_iff]
      omega
    · rw [if_neg h2]
      simp only [true_iff]
      omega

theorem pyNormIdx_some_lt {n : Nat} {i : Int} {k : Nat}
    (h : pyNormIdx n i = some k) : k < n := by
  unfold pyNormIdx at h
  by_cases h1 : 0 ≤ i ∧ i < (n : Int)
  · rw [if_pos h1] at h
    injection h with h
    omega
  · rw [if_neg h1] at h
    by_cases h2 : -(n : Int) ≤ i ∧ i < 0
    · rw [if_pos h2] at h
      injection h with h
      omega
    · rw [if_neg h2] at h
      exact absurd h (by simp)

theorem update_segment_ok (st : TrackerState) {i : Int} {k : Nat}
    (a b v : Option String) (h : pyNormIdx st.segments.length i = some k) :
    update_segment i a b v st =
      .ok { st with segments :=
              st.segments.set k (applyPathUpdate a b v (st.segments.getD k default)) } := by
  unfold update_segment
  rw [h]

theorem update_segment_err (st : TrackerState) {i : Int}
    (a b v : Option String) (h : pyNormIdx st.segments.length i = none) :
    update_segment i a b v st = .error .indexError := by
  unfold update_segment
  rw [h]

/-- Pointwise view of `l.set k (f (l.getD k default))` for an in-range `k`. -/
theorem set_mapAt_getElem? {α : Type} [Inhabited α] (l : List α) (k j : Nat)
    (f : α → α) (hk : k < l.length) :
    (l.set k (f (l.getD k default)))[j]? = if j = k then (l[j]?).map f else l[j]? := by
  by_cases hjk : j = k
  · subst hjk
    rw [if_pos rfl, List.getElem?_set_eq_of_lt _ hk, List.getElem?_eq_getElem hk]
    have hd : l.getD j default = l[j] := by
      rw [List.getD_eq_getElem?_getD, List.getElem?_eq_getElem hk]
      rfl
    rw [hd]
    rfl
  · rw [if_neg hjk, List.getElem?_set_ne (fun h => hjk h.symm)]

theorem update_segment_has_error (i : Int) (a b v : Option String)
    (st st' : TrackerState) (h : update_segment i a b v st = .ok st') :
    st'.has_error = st.has_error ∧ st'.run_id = st.run_id ∧
    st'.error_log = st.error_log := by
  unfold update_segment at h
  cases hn : pyNormIdx st.segments.length i with
  | none => rw [hn] at h; cases h
  | some k =>
    rw [hn] at h
    injection h with h
    subst h
    exact ⟨rfl, rfl, rfl⟩

theorem add_feedback_has_error (i : Int) (fb : Feedback)
    (st : TrackerState) (r : TrackerState × Bool) (h : add_feedback i fb st = .ok r) :
    r.1.has_error = st.has_error ∧ r.1.run_id = st.run_id ∧
    r.1.error_log = st.error_log := by
  unfold add_feedback at h
  cases hn : pyNormIdx st.segments.length i with
  | none => rw [hn] at h; cases h
  | some k =>
    rw [hn] at h
    injection h with h
    subst h
    exact ⟨rfl, rfl, rfl⟩

/-! ## Claim theorems -/

/-- C9: the `has_error` flag is monotone within a run — it is `false` at
run creation (`ExperimentTracker.__init__`), every tracker operation either
leaves it unchanged or sets it `true` (in the Bool order,
`st.has_error ≤ (step op st).has_error`), no operation resets it, and
`log_error` always sets it `true`. -/
theorem C9_has_error_monotone :
    (∀ run_id, (freshTracker run_id).has_error = false) ∧
    (∀ op st, st.has_error ≤ (step op st).has_error) ∧
    (∀ op st, (step op st).has_error = st.has_error ∨ (step op st).has_error = true) ∧
    (∀ m now st, (step (.logErr m now) st).has_error = true) := by
  have hmono : ∀ op st, st.has_error ≤ (step op st).has_error := by
    intro op st
    cases op with
    | start t p => exact le_of_eq rfl
    | update i a b v =>
      simp only [step]
      cases h : update_segment i a b v st with
      | error e => exact le_refl _
      | ok st' => exact le_of_eq (update_segment_has_error i a b v st st' h).1.symm
    | feedback i fb =>
      simp only [step]
      cases h : add_feedback i fb st with
      | error e => exact le_refl _
      | ok r => exact le_of_eq (add_feedback_has_error i fb st r h).1.symm
    | logErr m now => exact Bool.le_true _
  refine ⟨fun _ => rfl, hmono, ?_, fun m now st => rfl⟩
  intro op st
  cases hb : (step op st).has_error with
  | true => exact Or.inr rfl
  | false =>
    left
    have hle := hmono op st
    rw [hb] at hle
    cases hst : st.has_error with
    | false => rfl
    | true => rw [hst] at hle; exact absurd hle (by decide)

/-- A fully processed segment: every artifact recorded. -/
def demoSeg : DocumentarySegment :=
  { text := "s0"
    prompt := "p0"
    image_path := some "temp/image_0.png"
    audio_path := some "temp/audio_0.mp3"
    video_path := some "temp/segment_0.mp4" }

/-- A demonstration run state: one segment with every artifact recorded. -/
def demoState : TrackerState :=
  { run_id := "20250101_000000"
    segments := [demoSeg] }

/-- C4 counterexample: the snapshot `save()` writes embeds the wall-clock
timestamp (`_save_local_state`, experiment_tracker.py line 205), so two
consecutive saves of the same unmutated run state read two clock values and
write different bytes — here the same state saved at `"...00"` and at
`"...01"` produces unequal snapshots, against the claimed byte-identical
durable state. -/
theorem C4_counterexample_timestamp :
    (save_experiment_write demoState "2025-01-01T00:00:00").run_id
      = (save_experiment_write demoState "2025-01-01T00:00:01").run_id ∧
    (save_experiment_write demoState "2025-01-01T00:00:00").segments
      = (save_experiment_write demoState "2025-01-01T00:00:01").segments ∧
    save_experiment_write demoState "2025-01-01T00:00:00"
      ≠ save_experiment_write demoState "2025-01-01T00:00:01" := by
  refine ⟨rfl, rfl, ?_⟩
  intro h
  have := congrArg SavedState.timestamp h
  simp only [save_experiment_write, save_local_state] at this
  exact absurd this (by decide)

/-- C4 (amended): two consecutive `save()` calls with no intervening
mutation write snapshots that agree on the run id and on all segment data,
and differ at most in the embedded wall-clock timestamp; the writes are
identical exactly when the two clock readings coincide. -/
theorem C4_save_idempotent_up_to_timestamp (st : TrackerState) (t1 t2 : String) :
    (save_experiment_write st t1).run_id = (save_experiment_write st t2).run_id ∧
    (save_experiment_write st t1).segments = (save_experiment_write st t2).segments ∧
    (save_experiment_write st t1 = save_experiment_write st t2 ↔ t1 = t2) := by
  refine ⟨rfl, rfl, ?_, fun h => by rw [h]⟩
  intro h
  exact congrArg SavedState.timestamp h

theorem start_segment_length (t p : String) (st : TrackerState) :
    (start_segment t p st).1.segments.length = st.segments.length + 1 := by
  simp [start_segment]

theorem startMany_indices (ps : List (String × String)) (st : TrackerState) :
    (startMany ps st).2 = List.range' st.segments.length ps.length := by
  induction ps generalizing st with
  | nil => rfl
  | cons hd rest ih =>
    obtain ⟨t, p⟩ := hd
    simp only [startMany, List.length_cons, List.range'_succ, start_segment_idx, ih,
      start_segment_length]

theorem applyPathUpdate_text (a b v : Option String) (s : DocumentarySegment) :
    (applyPathUpdate a b v s).text = s.text := rfl

theorem step_segments_length (op : TrackerOp) (st : TrackerState) :
    st.segments.length ≤ (step op st).segments.length := by
  cases op with
  | start t p => simp [step, start_segment]
  | update i a b v =>
    simp only [step]
    cases h : update_segment i a b v st with
    | error e => exact le_refl _
    | ok st' =>
      unfold update_segment at h
      cases hn : pyNormIdx st.segments.length i with
      | none => rw [hn] at h; cases h
      | some k =>
        rw [hn] at h
        injection h with h
        subst h
        simp
  | feedback i fb =>
    simp only [step]
    cases h : add_feedback i fb st with
    | error e => exact le_refl _
    | ok r =>
      unfold add_feedback at h
      cases hn : pyNormIdx st.segments.length i with
      | none => rw [hn] at h; cases h
      | some k =>
        rw [hn] at h
        injection h with h
        subst h
        simp
  | logErr m now => exact le_refl _

theorem step_preserves_entry_text (op : TrackerOp) (st : TrackerState) (i : Nat)
    (hi : i < st.segments.length) :
    ((step op st).segments[i]?).map DocumentarySegment.text
      = (st.segments[i]?).map DocumentarySegment.text := by
  cases op with
  | start t p =>
    show ((st.segments ++ [{ text := t, prompt := p }])[i]?).map _ = _
    rw [List.getElem?_append_left hi]
  | update i' a b v =>
    simp only [step]
    cases h : update_segment i' a b v st with
    | error e => rfl
    | ok st' =>
      unfold update_segment at h
      cases hn : pyNormIdx st.segments.length i' with
      | none => rw [hn] at h; cases h
      | some k =>
        rw [hn] at h
        injection h with h
        subst h
        have hk := pyNormIdx_some_lt hn
        show ((st.segments.set k _)[i]?).map _ = _
        rw [set_mapAt_getElem? st.segments k i _ hk]
        by_cases hik : i = k
        · rw [if_pos hik, Option.map_map]
          congr 1
        · rw [if_neg hik]
  | feedback i' fb =>
    simp only [step]
    cases h : add_feedback i' fb st with
    | error e => rfl
    | ok r =>
      unfold add_feedback at h
      cases hn : pyNormIdx st.segments.length i' with
      | none => rw [hn] at h; cases h
      | some k =>
        rw [hn] at h
        injection h with h
        subst h
        have hk := pyNormIdx_some_lt hn
        show ((st.segments.set k _)[i]?).map _ = _
        rw [set_mapAt_getElem? st.segments k i
          (fun s => { s with feedback := some fb }) hk]
        by_cases hik : i = k
        · rw [if_pos hik, Option.map_map]
          congr 1
        · rw [if_neg hik]
  | logErr m now => rfl

theorem applyOps_cons (op : TrackerOp) (ops : List TrackerOp) (st : TrackerState) :
    applyOps (op :: ops) st = applyOps ops (step op st) := rfl

theorem applyOps_length (ops : List TrackerOp) (st : TrackerState) :
    st.segments.length ≤ (applyOps ops st).segments.length := by
  induction ops generalizing st with
  | nil => exact le_refl _
  | cons op rest ih =>
    exact le_trans (step_segments_length op st) (ih (step op st))

theorem applyOps_preserves_entry_text (ops : List TrackerOp) (st : TrackerState) (i : Nat)
    (hi : i < st.segments.length) :
    ((applyOps ops st).segments[i]?).map DocumentarySegment.text
      = (st.segments[i]?).map DocumentarySegment.text := by
  induction ops generalizing st with
  | nil => rfl
  | cons op rest ih =>
    have h2 := ih (step op st) (lt_of_lt_of_le hi (step_segments_length op st))
    exact h2.trans (step_preserves_entry_text op st i hi)

/-- C8: starting N segments on a fresh run returns the indices `0..N-1` in
call order, and an index, once assigned, keeps denoting the same logical
segment for the life of the run: any sequence of later tracker operations
can only append segments (never drop or reorder), and the entry at a
previously assigned index keeps its immutable `text`. -/
theorem C8_segment_indices_stable :
    (∀ run_id ps, (startMany ps (freshTracker run_id)).2 = List.range ps.length) ∧
    (∀ ops st i, i < st.segments.length →
      st.segments.length ≤ (applyOps ops st).segments.length ∧
      ((applyOps ops st).segments[i]?).map DocumentarySegment.text
        = (st.segments[i]?).map DocumentarySegment.text) := by
  constructor
  · intro run_id ps
    rw [startMany_indices, List.range_eq_range']
    rfl
  · intro ops st i hi
    exact ⟨applyOps_length ops st, applyOps_preserves_entry_text ops st i hi⟩

/-- A run state with three started segments, for concrete instantiation. -/
def demoState8 : TrackerState :=
  { run_id := "r"
    segments := [{ text := "a", prompt := "pa" }, { text := "b", prompt := "pb" },
                 { text := "c", prompt := "pc" }] }

/-- C8 witness: three `start_segment` calls on a fresh run return
`[0, 1, 2]`, and after an update to segment 2 the entry at index 0 still
carries its original text. -/
theorem C8_segment_indices_stable_witness :
    (startMany [("a", "pa"), ("b", "pb"), ("c", "pc")] (freshTracker "r")).2 = List.range 3 ∧
    ((applyOps [TrackerOp.update 2 (some "x.png") none none] demoState8).segments[0]?).map
        DocumentarySegment.text = ((demoState8.segments[0]?).map DocumentarySegment.text) :=
  ⟨C8_segment_indices_stable.1 "r" [("a", "pa"), ("b", "pb"), ("c", "pc")],
   (C8_segment_indices_stable.2 [TrackerOp.update 2 (some "x.png") none none]
      demoState8 0 (by decide)).2⟩

theorem padTruncate_length (segs : List String) : (padTruncate segs).length = 10 := by
  unfold padTruncate
  by_cases h : segs.length < 10
  · rw [if_pos h, List.length_take, List.length_append, List.length_replicate]
    omega
  · rw [if_neg h, List.length_take]
    omega

theorem padTruncate_of_ge (segs : List String) (h : 10 ≤ segs.length) :
    padTruncate segs = segs.take 10 := by
  unfold padTruncate
  rw [if_neg (by omega)]

theorem padTruncate_of_lt (segs : List String) (h : segs.length < 10) :
    padTruncate segs = segs ++ List.replicate (10 - segs.length) placeholderMarker := by
  unfold padTruncate
  rw [if_pos h]
  apply List.take_of_length_le
  rw [List.length_append, List.length_replicate]
  omega

/-- C2: when the completion yields at least one non-empty
blank-line-delimited candidate, the segmenter returns exactly ten
segments — the first ten candidates in original order when there are ten
or more, and all candidates followed by copies of the placeholder marker
`"[Segment content to be generated]"` up to length ten when there are
fewer. -/
theorem C2_segmenter_exactly_ten (content : String)
    (h : candidateSegments content ≠ []) :
    parse_segments content = .ok (padTruncate (candidateSegments content)) ∧
    (padTruncate (candidateSegments content)).length = 10 ∧
    (10 ≤ (candidateSegments content).length →
      padTruncate (candidateSegments content) = (candidateSegments content).take 10) ∧
    ((candidateSegments content).length < 10 →
      padTruncate (candidateSegments content) =
        candidateSegments content ++
          List.replicate (10 - (candidateSegments content).length) placeholderMarker) := by
  refine ⟨?_, padTruncate_length _, fun hge => padTruncate_of_ge _ hge,
    fun hlt => padTruncate_of_lt _ hlt⟩
  unfold parse_segments
  rw [if_neg h]

/-- C2 witness: the completion content `"a\n\nb"` yields the two
candidates `["a", "b"]`, and the segmenter returns them followed by eight
placeholder copies — ten segments in all. -/
theorem C2_segmenter_exactly_ten_witness :
    parse_segments "a\n\nb" = .ok (padTruncate (candidateSegments "a\n\nb")) ∧
    (padTruncate (candidateSegments "a\n\nb")).length = 10 ∧
    candidateSegments "a\n\nb" = ["a", "b"] ∧
    padTruncate (candidateSegments "a\n\nb") =
      ["a", "b"] ++ List.replicate 8 placeholderMarker := by
  have hmain := C2_segmenter_exactly_ten "a\n\nb" (by decide)
  have hc : candidateSegments "a\n\nb" = ["a", "b"] := by decide
  refine ⟨hmain.1, hmain.2.1, hc, ?_⟩
  rw [hmain.2.2.2 (by rw [hc]; decide), hc]
  rfl

theorem blanks_data : ∀ c ∈ ("\n\n" : String).data, isPySpace c := by decide

theorem empty_data : ("" : String).data = [] := rfl

theorem blank_foldl_iff (docs : List String) (acc : String) :
    (∀ c ∈ (docs.foldl (fun a t => a ++ t ++ "\n\n") acc).data, isPySpace c) ↔
      ((∀ c ∈ acc.data, isPySpace c) ∧ ∀ d ∈ docs, ∀ c ∈ d.data, isPySpace c) := by
  induction docs generalizing acc with
  | nil => simp
  | cons d rest ih =>
    rw [List.foldl_cons, ih]
    constructor
    · rintro ⟨hacc, hrest⟩
      simp only [String.data_append, List.mem_append] at hacc
      refine ⟨fun c hc => hacc c (Or.inl (Or.inl hc)), ?_⟩
      intro e he c hc
      rcases List.mem_cons.mp he with rfl | he
      · exact hacc c (Or.inl (Or.inr hc))
      · exact hrest e he c hc
    · rintro ⟨hacc, hall⟩
      refine ⟨?_, fun e he c hc => hall e (List.mem_cons_of_mem d he) c hc⟩
      intro c hc
      simp only [String.data_append, List.mem_append] at hc
      rcases hc with (hc | hc) | hc
      · exact hacc c hc
      · exact hall d (List.mem_cons_self d rest) c hc
      · exact blanks_data c hc

theorem blank_combinedText_iff (docs : List String) :
    pyStrip (combinedText docs) = "" ↔ ∀ d ∈ docs, ∀ c ∈ d.data, isPySpace c := by
  rw [pyStrip_eq_empty_iff]
  unfold combinedText
  rw [blank_foldl_iff]
  constructor
  · exact fun h => h.2
  · refine fun h => ⟨?_, h⟩
    intro c hc
    rw [empty_data] at hc
    exact absurd hc (List.not_mem_nil c)

theorem blank_join_iff (docs : List String) :
    pyStrip (String.join docs) = "" ↔ ∀ d ∈ docs, ∀ c ∈ d.data, isPySpace c := by
  rw [pyStrip_eq_empty_iff, String.data_join]
  constructor
  · intro h d hd c hc
    exact h c (List.mem_flatten.mpr ⟨d.data, List.mem_map_of_mem _ hd, hc⟩)
  · intro h c hc
    rcases List.mem_flatten.mp hc with ⟨l, hl, hcl⟩
    rcases List.mem_map.mp hl with ⟨d, hd, rfl⟩
    exact h d hd c hcl

/-- C5: over already-extracted (readable) document texts,
`process_documents` raises the empty-input error iff the combined text of
all documents is empty after stripping whitespace; in particular an empty
document list always raises it.  (`String.join docs` renders the claim's
"combined text of all documents"; the code's separator-joined running text
is blank exactly when it is, since the separator is whitespace.) -/
theorem C5_empty_input_iff (docs : List String) (completion : Except String String) :
    (process_documents docs completion = .error .emptyInput ↔
      pyStrip (String.join docs) = "") ∧
    process_documents [] completion = .error .emptyInput := by
  constructor
  · unfold process_documents
    by_cases hb : pyStrip (combinedText docs) = ""
    · rw [if_pos hb]
      exact ⟨fun _ => (blank_join_iff docs).mpr ((blank_combinedText_iff docs).mp hb),
        fun _ => rfl⟩
    · rw [if_neg hb]
      constructor
      · intro h
        exfalso
        split at h
        · simp at h
        · split at h
          · simp at h
          · simp at h
      · intro hj
        exact absurd ((blank_combinedText_iff docs).mpr ((blank_join_iff docs).mp hj)) hb
  · unfold process_documents
    rw [if_pos (show pyStrip (combinedText []) = "" from rfl)]

theorem update_segment_err_iff (st : TrackerState) (i : Int) (a b v : Option String) :
    update_segment i a b v st = .error .indexError ↔
      ¬ (-(st.segments.length : Int) ≤ i ∧ i < (st.segments.length : Int)) := by
  rw [← pyNormIdx_eq_none_iff]
  cases hn : pyNormIdx st.segments.length i with
  | none => simp [update_segment_err st a b v hn]
  | some k => simp [update_segment_ok st a b v hn]

theorem update_segment_ok_frame (st : TrackerState) (i : Int) (k : Nat)
    (a b v : Option String) (hn : pyNormIdx st.segments.length i = some k) :
    ∃ st', update_segment i a b v st = .ok st' ∧
      st'.run_id = st.run_id ∧ st'.has_error = st.has_error ∧
      st'.error_log = st.error_log ∧
      st'.segments.length = st.segments.length ∧
      (∀ j, j ≠ k → st'.segments[j]? = st.segments[j]?) ∧
      st'.segments[k]? = (st.segments[k]?).map (applyPathUpdate a b v) := by
  have hk := pyNormIdx_some_lt hn
  refine ⟨_, update_segment_ok st a b v hn, rfl, rfl, rfl, by simp, ?_, ?_⟩
  · intro j hj
    show (st.segments.set k _)[j]? = _
    rw [set_mapAt_getElem? st.segments k j _ hk, if_neg hj]
  · show (st.segments.set k _)[k]? = _
    rw [set_mapAt_getElem? st.segments k k _ hk, if_pos rfl]

/-- C3 (amended): `update_segment(index, ...)` fails with `IndexError` iff
the index is out of range of the segment list under Python list semantics
(so negative indices down to `-len`, which refer to previously started
segments, do not fail); when it succeeds it applies a partial update to
exactly those of the segment's image, audio and video paths supplied with
truthy values (`None` and `""` are ignored), leaving every other field,
every other segment and the run-level fields unchanged — there is no
status argument or stored status field. -/
theorem C3_update_segment_spec (st : TrackerState) (i : Int) (a b v : Option String) :
    (update_segment i a b v st = .error .indexError ↔
      ¬ (-(st.segments.length : Int) ≤ i ∧ i < (st.segments.length : Int))) ∧
    (∀ k, pyNormIdx st.segments.length i = some k →
      ∃ st', update_segment i a b v st = .ok st' ∧
        st'.run_id = st.run_id ∧ st'.has_error = st.has_error ∧
        st'.error_log = st.error_log ∧
        st'.segments.length = st.segments.length ∧
        (∀ j, j ≠ k → st'.segments[j]? = st.segments[j]?) ∧
        st'.segments[k]? = (st.segments[k]?).map (applyPathUpdate a b v)) :=
  ⟨update_segment_err_iff st i a b v,
   fun k hn => update_segment_ok_frame st i k a b v hn⟩

/-- A run state with one segment whose image path is recorded. -/
def demoState3 : TrackerState :=
  { run_id := "r"
    segments := [{ text := "s0", prompt := "p0", image_path := some "a.png" }] }

/-- C3 counterexample: at the in-range index 0 the caller supplies the
image-path value `""` (a supplied update of the image-path field, in the
claim's terms); the call succeeds but the update is not applied — the
state is returned entirely unchanged and the stored path stays `"a.png"`,
because the source overwrites a path only for truthy values.  (The claimed
updatable `status` does not exist at all: `update_segment` takes only the
three path keywords and `DocumentarySegment` stores no status.) -/
theorem C3_counterexample_untruthy_update :
    update_segment 0 (some "") none none demoState3 = .ok demoState3 ∧
    (demoState3.segments.getD 0 default).image_path = some "a.png" ∧
    some "" ≠ some "a.png" := by
  exact ⟨rfl, rfl, by decide⟩

/-- C10: for every in-range index (in Python semantics), `update_segment`
modifies only the artifact-path fields of the addressed segment supplied
with truthy values: each path becomes the supplied value if truthy and is
left in place otherwise (`None` or `""`), the segment's other fields
(text, prompt, feedback, metrics), every other segment, the segment count
and the run-level fields are unchanged, and a path once set non-`None`
remains non-`None` after any `update_segment`. -/
theorem C10_update_segment_frame (st : TrackerState) (i : Int) (k : Nat)
    (a b v : Option String) (hn : pyNormIdx st.segments.length i = some k) :
    ∃ st' old, update_segment i a b v st = .ok st' ∧
      st.segments[k]? = some old ∧
      st'.segments[k]? = some (applyPathUpdate a b v old) ∧
      (applyPathUpdate a b v old).text = old.text ∧
      (applyPathUpdate a b v old).prompt = old.prompt ∧
      (applyPathUpdate a b v old).feedback = old.feedback ∧
      (applyPathUpdate a b v old).metrics = old.metrics ∧
      (applyPathUpdate a b v old).image_path = (if truthy a then a else old.image_path) ∧
      (applyPathUpdate a b v old).audio_path = (if truthy b then b else old.audio_path) ∧
      (applyPathUpdate a b v old).video_path = (if truthy v then v else old.video_path) ∧
      (∀ p, old.image_path = some p → ∃ q, (applyPathUpdate a b v old).image_path = some q) ∧
      (∀ p, old.audio_path = some p → ∃ q, (applyPathUpdate a b v old).audio_path = some q) ∧
      (∀ p, old.video_path = some p → ∃ q, (applyPathUpdate a b v old).video_path = some q) ∧
      (∀ j, j ≠ k → st'.segments[j]? = st.segments[j]?) ∧
      st'.run_id = st.run_id ∧ st'.has_error = st.has_error ∧
      st'.error_log = st.error_log ∧
      st'.segments.length = st.segments.length := by
  have hk := pyNormIdx_some_lt hn
  obtain ⟨st', h1, h2, h3, h4, h5, h6, h7⟩ := update_segment_ok_frame st i k a b v hn
  have hold : st.segments[k]? = some (st.segments[k]) := List.getElem?_eq_getElem hk
  refine ⟨st', st.segments[k], h1, hold, ?_, rfl, rfl, rfl, rfl, rfl, rfl, rfl, ?_, ?_,
    ?_, h6, h2, h3, h4, h5⟩
  · rw [h7, hold]
    rfl
  · intro p hp
    by_cases ha : truthy a
    · cases a with
      | none => exact absurd ha (by simp [truthy])
      | some s => exact ⟨s, by simp [applyPathUpdate, ha]⟩
    · exact ⟨p, by simp [applyPathUpdate, ha, hp]⟩
  · intro p hp
    by_cases hb : truthy b
    · cases b with
      | none => exact absurd hb (by simp [truthy])
      | some s => exact ⟨s, by simp [applyPathUpdate, hb]⟩
    · exact ⟨p, by simp [applyPathUpdate, hb, hp]⟩
  · intro p hp
    by_cases hv : truthy v
    · cases v with
      | none => exact absurd hv (by simp [truthy])
      | some s => exact ⟨s, by simp [applyPathUpdate, hv]⟩
    · exact ⟨p, by simp [applyPathUpdate, hv, hp]⟩

/-- C10 witness: on `demoState` (one segment, all paths recorded), the call
`update_segment 0 None "" "nv.mp4"` succeeds, leaves the image path alone,
ignores the empty audio value, and overwrites only the video path. -/
theorem C10_update_segment_frame_witness :
    pyNormIdx demoState.segments.length 0 = some 0 ∧
    (∃ st' old,
      update_segment 0 none (some "") (some "nv.mp4") demoState = .ok st' ∧
      demoState.segments[0]? = some old ∧
      st'.segments[0]? = some (applyPathUpdate none (some "") (some "nv.mp4") old) ∧
      (applyPathUpdate none (some "") (some "nv.mp4") old).image_path = old.image_path ∧
      (applyPathUpdate none (some "") (some "nv.mp4") old).audio_path = old.audio_path ∧
      (applyPathUpdate none (some "") (some "nv.mp4") old).video_path = some "nv.mp4") := by
  refine ⟨by decide, ?_⟩
  obtain ⟨st', old, h1, h2, h3, _, _, _, _, h8, h9, h10, _⟩ :=
    C10_update_segment_frame demoState 0 0 none (some "") (some "nv.mp4") (by decide)
  refine ⟨st', old, h1, h2, h3, ?_, ?_, ?_⟩
  · rw [h8]
    rfl
  · rw [h9]
    rfl
  · rw [h10]
    rfl

/-- Lemma: `processOneSegment` always stops inside its own iteration: either the
prompt-synthesis completion call fails, or the synthesized prompt reaches
main.py line 81, whose `prompt=` keyword raises `TypeError` inside
`tracker.update_segment`. -/
theorem processOneSegment_eq (om : Oracle) (char voice seg : String)
    (st : TrackerState) (k : Counters) :
    processOneSegment om char voice seg st k =
      ((start_segment seg "" st).1, { k with c := k.c + 1 },
        some (match om.complete k.c
                ("Create a cinematic SD prompt for this scene: " ++ seg) with
              | .error e => PyErr.generationError e
              | .ok _ => PyErr.typeError)) := by
  unfold processOneSegment generate_sd_prompts call_update_segment
  cases om.complete k.c ("Create a cinematic SD prompt for this scene: " ++ seg) with
  | error e => rfl
  | ok p => rfl

theorem processLoop_cons (om : Oracle) (char voice seg : String) (rest : List String)
    (st : TrackerState) (k : Counters) :
    processLoop om char voice (seg :: rest) st k =
      ((start_segment seg "" st).1, { k with c := k.c + 1 },
        some (match om.complete k.c
                ("Create a cinematic SD prompt for this scene: " ++ seg) with
              | .error e => PyErr.generationError e
              | .ok _ => PyErr.typeError)) := by
  show (match processOneSegment om char voice seg st k with
        | (st', k', some e) => (st', k', some e)
        | (st', k', none) => processLoop om char voice rest st' k') = _
  rw [processOneSegment_eq]

/-- C1 (amended): in a run whose segmentation succeeded, a failure while
processing one segment — in an asset-generation stage or in the
prompt-recording step — terminates not just that segment's progress but
the whole per-segment loop.  Concretely: when the loop ends in an error,
the failing segment is the only one that was ever started (its text is the
run's first segment), every later index holds no segment at all — so no
later segment is started or processed — the run's `has_error` flag is set
true, and the run itself is not aborted (the `finally` arm still writes
the final snapshot of the state). -/
theorem C1_failure_stops_loop (om : Oracle) (char voice rid now : String)
    (segs : List String) :
    ∀ e, (runMain om char voice segs (freshTracker rid) now).loopError = some e →
      (runMain om char voice segs (freshTracker rid) now).state.has_error = true ∧
      (runMain om char voice segs (freshTracker rid) now).finalSaved = true ∧
      (runMain om char voice segs (freshTracker rid) now).finalWrite =
        save_experiment_write (runMain om char voice segs (freshTracker rid) now).state now ∧
      (runMain om char voice segs (freshTracker rid) now).state.segments.length = 1 ∧
      ((runMain om char voice segs (freshTracker rid) now).state.segments.map
          DocumentarySegment.text) = segs.take 1 ∧
      (∀ j, 1 ≤ j →
        (runMain om char voice segs (freshTracker rid) now).state.segments[j]? = none) := by
  intro e he
  cases segs with
  | nil =>
    exfalso
    simp [runMain, processLoop] at he
  | cons seg rest =>
    simp only [runMain, processLoop_cons] at he ⊢
    refine ⟨by trivial, by trivial, by trivial, ?_, ?_, ?_⟩
    · simp [log_error, start_segment, freshTracker]
    · simp [log_error, start_segment, freshTracker]
    · intro j hj
      apply List.getElem?_eq_none
      simp only [log_error, start_segment, freshTracker]
      simp only [List.nil_append, List.length_cons, List.length_nil]
      omega

/-- An oracle whose completion service always fails. -/
def failingOracle : Oracle :=
  { complete := fun _ _ => .error "completion unavailable"
    imageOk := fun _ => .ok ()
    audioOk := fun _ => .ok ()
    videoOk := fun _ => .ok () }

/-- C1 counterexample: two segments, and segment 0's prompt stage (an
asset-generation stage) fails.  The claim says every other segment is
still processed through all its stages; in fact the final state contains
only segment 0 — segment 1 was never started, let alone processed — while
`has_error` is true. -/
theorem C1_counterexample_no_isolation :
    (runMain failingOracle "char.png" "v" ["s0", "s1"]
        (freshTracker "r") "t").loopError =
      some (PyErr.generationError "completion unavailable") ∧
    ((runMain failingOracle "char.png" "v" ["s0", "s1"]
        (freshTracker "r") "t").state.segments.map DocumentarySegment.text) = ["s0"] ∧
    (runMain failingOracle "char.png" "v" ["s0", "s1"]
        (freshTracker "r") "t").state.has_error = true :=
  ⟨rfl, rfl, rfl⟩

/-- C1 witness: the amended statement instantiated on the failing run of
two segments — only segment 0 is started, index 1 holds no segment. -/
theorem C1_failure_stops_loop_witness :
    (runMain failingOracle "c.png" "v" ["a", "b"] (freshTracker "rw") "t").loopError =
      some (PyErr.generationError "completion unavailable") ∧
    ((runMain failingOracle "c.png" "v" ["a", "b"] (freshTracker "rw") "t").state.has_error
        = true ∧
      (runMain failingOracle "c.png" "v" ["a", "b"] (freshTracker "rw") "t").finalSaved
        = true ∧
      (runMain failingOracle "c.png" "v" ["a", "b"] (freshTracker "rw") "t").finalWrite =
        save_experiment_write
          (runMain failingOracle "c.png" "v" ["a", "b"] (freshTracker "rw") "t").state "t" ∧
      (runMain failingOracle "c.png" "v" ["a", "b"]
          (freshTracker "rw") "t").state.segments.length = 1 ∧
      ((runMain failingOracle "c.png" "v" ["a", "b"] (freshTracker "rw") "t").state.segments.map
          DocumentarySegment.text) = ["a", "b"].take 1 ∧
      (∀ j, 1 ≤ j →
        (runMain failingOracle "c.png" "v" ["a", "b"]
          (freshTracker "rw") "t").state.segments[j]? = none)) :=
  ⟨rfl, C1_failure_stops_loop failingOracle "c.png" "v" "rw" "t" ["a", "b"]
    (PyErr.generationError "completion unavailable") rfl⟩

/-- Feedback requesting regeneration with revised prompt `"X"`. -/
def fbX : Feedback :=
  { text_rating := some 3
    prompt_rating := some 3
    revised_prompt := some "X"
    comments := some ""
    needs_regeneration := some true }

/-- An oracle whose completion service always answers `"B"`. -/
def oracleB : Oracle :=
  { complete := fun _ _ => .ok "B"
    imageOk := fun _ => .ok ()
    audioOk := fun _ => .ok ()
    videoOk := fun _ => .ok () }

/-- C6, evaluating the code at the failing input: on a run with one fully
completed segment (`demoState`), `add_feedback 0 fbX` with
`needs_regeneration = true` and `revised_prompt = "X"` does return `true`,
but its entire state effect is storing the feedback dict on the segment:
no stored status exists to move out of `Completed` (the artifact paths
that encode completion are untouched), and a subsequent image-generation
pass over the segment's text synthesizes a fresh prompt (here `"B"`)
instead of using `"X"` — nothing in the pipeline reads `revised_prompt`
(main.py line 133 is a comment stub). -/
theorem C6_add_feedback_no_regeneration :
    add_feedback 0 fbX demoState =
      .ok ({ demoState with segments := [{ demoSeg with feedback := some fbX }] }, true) ∧
    generate_images oracleB ["s0"] "char.png" 0 0 =
      .ok (["temp/image_0.png"],
           [{ prompt := "B"
              negative_prompt := "blurry, low quality, bad composition"
              width := 1080
              height := 1920
              character_reference := "char.png" }], 1, 1) ∧
    (some "B" : Option String) ≠ some "X" :=
  ⟨rfl, rfl, by decide⟩

/-- An oracle whose completion service answers `"A"` to its first call and
`"B"` to every later one. -/
def oracleAB : Oracle :=
  { complete := fun c _ => .ok (if c = 0 then "A" else "B")
    imageOk := fun _ => .ok ()
    audioOk := fun _ => .ok ()
    videoOk := fun _ => .ok () }

/-- C7, evaluating the code at the failing input: one segment, completion
service answering `"A"` then `"B"`.  (1) The orchestrator synthesizes
prompt `"A"` (completion call 0) but crashes recording it — main.py line
81 passes `prompt=` to `update_segment`, which accepts no such keyword, so
the run stops with `TypeError`, the segment's recorded prompt stays `""`,
and `has_error` becomes true.  (2) The image-generation stage for the same
segment synthesizes its own, second prompt (completion call 1, `"B"`) and
passes that one to the image collaborator.  So the prompt is synthesized
twice per segment, and the prompt passed to the image service is not the
one the orchestrator obtained, let alone a recorded one. -/
theorem C7_prompt_synthesized_twice :
    (runMain oracleAB "char.png" "v" ["s0"] (freshTracker "r") "t").loopError =
      some PyErr.typeError ∧
    ((runMain oracleAB "char.png" "v" ["s0"] (freshTracker "r") "t").state.segments.map
        DocumentarySegment.prompt) = [""] ∧
    (runMain oracleAB "char.png" "v" ["s0"] (freshTracker "r") "t").state.has_error = true ∧
    (generate_sd_prompts oracleAB "s0" 0).1 = .ok "A" ∧
    generate_images oracleAB ["s0"] "char.png" 1 0 =
      .ok (["temp/image_0.png"],
           [{ prompt := "B"
              negative_prompt := "blurry, low quality, bad composition"
              width := 1080
              height := 1920
              character_reference := "char.png" }], 2, 1) ∧
    (some "A" : Option String) ≠ some "B" :=
  ⟨rfl, rfl, rfl, rfl, rfl, by decide⟩

end CrimeDoc
